import Mathlib

/-
Verification of the response-resolution and session-cache protocol of the
supabase-auth client (src/client.rs).

Modelling conventions:
* Machine-level HTTP and JSON are external to this repository.  A completed
  exchange is observed as its status code, effective URL and body text, which
  client.rs captures before any parse attempt.  Each serde parse attempt
  `from_str::<T>(&res_body)` is modelled as an explicit parser argument of
  type `String → Option T` applied to the body text, so the same body is fed
  to every parse attempt, exactly as in the source.
* The payload record shapes live in the models module, which is not part of
  the provided source; they are modelled from the spec as uninterpreted typed
  containers (the client never inspects them beyond typed deserialization).
* Each operation of client.rs becomes a pure function from the client state
  and the observed response to a pair of the typed result and the new client
  state (the RefCell session cache made explicit).
-/

namespace SupabaseAuth

/-- Modelled from the spec: server-side profile record (id, email/phone,
metadata), an uninterpreted payload the client reads only through typed deserialization. -/
structure User where
  id : String
  email : String
  phone : String
  deriving DecidableEq, Repr

/-- Modelled from the spec: a session pairs access/refresh tokens, expiry and
the associated user profile. -/
structure Session where
  access_token : String
  refresh_token : String
  expires_in : Nat
  user : User
  deriving DecidableEq, Repr

/-- Modelled from the spec: the structured error envelope the server returns,
carrying a human-readable message. -/
structure SupabaseHTTPError where
  message : String
  deriving DecidableEq, Repr

/-- Modelled from the spec: acknowledgement payload returned by the OTP send
endpoints, uninterpreted by the client. -/
structure OTPResponse where
  payload : String
  deriving DecidableEq, Repr

/-- Modelled from the spec: health report of the auth server, uninterpreted. -/
structure AuthServerHealth where
  payload : String
  deriving DecidableEq, Repr

/-- Modelled from the spec: public settings of the auth server, uninterpreted. -/
structure AuthServerSettings where
  payload : String
  deriving DecidableEq, Repr

/-- Modelled from the spec: sign-up outcome describing a pending email
confirmation rather than an active session, uninterpreted. -/
structure EmailSignUpConfirmation where
  payload : String
  deriving DecidableEq, Repr

/-- Result of email sign-up: either an active session or a pending
confirmation (models::EmailSignUpResult). -/
inductive EmailSignUpResult where
  | sessionResult (s : Session)
  | confirmationResult (c : EmailSignUpConfirmation)
  deriving DecidableEq, Repr

/-- Modelled from the spec: the error taxonomy of the crate.  `authError`
carries the remote status code and a best-effort message; `serdeError` is a
serialization failure converted by the question-mark operator; `parseUrlError`
is a malformed OAuth URL; `configError` is a missing environment variable at
construction time. -/
inductive Error where
  | authError (status : Nat) (message : String)
  | serdeError
  | parseUrlError
  | configError (varName : String)
  deriving DecidableEq, Repr

/-- The observable part of a completed HTTP exchange: numeric status code,
effective URL, and full body text, captured before any parse attempt. -/
structure HttpResponse where
  status : Nat
  url : String
  body : String
  deriving DecidableEq, Repr

/-- The reqwest StatusCode::is_success predicate: the 2xx range. -/
def isSuccessStatus (s : Nat) : Bool :=
  200 ≤ s && s ≤ 299

/-- The reqwest StatusCode::is_client_error predicate: the 4xx range. -/
def isClientErrorStatus (s : Nat) : Bool :=
  400 ≤ s && s ≤ 499

/-- The reqwest StatusCode::is_server_error predicate: the 5xx range. -/
def isServerErrorStatus (s : Nat) : Bool :=
  500 ≤ s && s ≤ 599

/-- Whether an operation result is a success. -/
def isOkResult {α : Type} : Except Error α → Bool
  | .ok _ => true
  | .error _ => false

/-- The AuthClient state: connection configuration (immutable after
construction) and the optional cached session (the RefCell made explicit). -/
structure AuthClient where
  project_url : String
  api_key : String
  jwt_secret : String
  session : Option Session
  deriving DecidableEq, Repr

/-- AuthClient::is_authenticated: presence check on the cached session. -/
def AuthClient.is_authenticated (c : AuthClient) : Bool :=
  c.session.isSome

/-- Modelled from the spec: the fixed path of the auth API under the base
URL, models::AUTH_V1. -/
def AUTH_V1 : String := "/auth/v1"

/-- AuthClient::new (client.rs lines 49-61). -/
def AuthClient.new (project_url api_key jwt_secret : String) : AuthClient :=
  { project_url := project_url
    api_key := api_key
    jwt_secret := jwt_secret
    session := none }

/-- AuthClient::new_from_env (client.rs lines 71-83): read the three
environment variables in order, the question-mark operator turning the first
absent one into a configuration error. -/
def new_from_env (env : String → Option String) : Except Error AuthClient :=
  match env "SUPABASE_URL" with
  | none => .error (.configError "SUPABASE_URL")
  | some project_url =>
    match env "SUPABASE_API_KEY" with
    | none => .error (.configError "SUPABASE_API_KEY")
    | some api_key =>
      match env "SUPABASE_JWT_SECRET" with
      | none => .error (.configError "SUPABASE_JWT_SECRET")
      | some jwt_secret =>
        .ok { project_url := project_url
              api_key := api_key
              jwt_secret := jwt_secret
              session := none }

/-- AuthClient::login_with_email response resolution (client.rs lines
130-149): parse the body as a Session first, caching and returning it on
success regardless of status; otherwise try the error envelope, then fall
back to the raw body text. -/
def login_with_email (ps : String → Option Session)
    (pe : String → Option SupabaseHTTPError)
    (c : AuthClient) (r : HttpResponse) : Except Error Session × AuthClient :=
  match ps r.body with
  | some session => (.ok session, { c with session := some session })
  | none =>
    match pe r.body with
    | some e => (.error (.authError r.status e.message), c)
    | none => (.error (.authError r.status r.body), c)

/-- AuthClient::login_with_phone response resolution (client.rs lines
182-201): same pipeline as login_with_email. -/
def login_with_phone (ps : String → Option Session)
    (pe : String → Option SupabaseHTTPError)
    (c : AuthClient) (r : HttpResponse) : Except Error Session × AuthClient :=
  match ps r.body with
  | some session => (.ok session, { c with session := some session })
  | none =>
    match pe r.body with
    | some e => (.error (.authError r.status e.message), c)
    | none => (.error (.authError r.status r.body), c)

/-- AuthClient::sign_up_with_email_and_password response resolution
(client.rs lines 245-268): try Session, then EmailSignUpConfirmation, then
the error envelope, then the raw body.  The session cache is never written. -/
def sign_up_with_email_and_password (ps : String → Option Session)
    (pc : String → Option EmailSignUpConfirmation)
    (pe : String → Option SupabaseHTTPError)
    (c : AuthClient) (r : HttpResponse) :
    Except Error EmailSignUpResult × AuthClient :=
  match ps r.body with
  | some session => (.ok (.sessionResult session), c)
  | none =>
    match pc r.body with
    | some conf => (.ok (.confirmationResult conf), c)
    | none =>
      match pe r.body with
      | some e => (.error (.authError r.status e.message), c)
      | none => (.error (.authError r.status r.body), c)

/-- AuthClient::sign_up_with_phone_and_password response resolution
(client.rs lines 311-329): Session success shape, no cache write. -/
def sign_up_with_phone_and_password (ps : String → Option Session)
    (pe : String → Option SupabaseHTTPError)
    (c : AuthClient) (r : HttpResponse) : Except Error Session × AuthClient :=
  match ps r.body with
  | some session => (.ok session, c)
  | none =>
    match pe r.body with
    | some e => (.error (.authError r.status e.message), c)
    | none => (.error (.authError r.status r.body), c)

/-- AuthClient::login_anonymously response resolution (client.rs lines
368-387): Session success shape, cached on success. -/
def login_anonymously (ps : String → Option Session)
    (pe : String → Option SupabaseHTTPError)
    (c : AuthClient) (r : HttpResponse) : Except Error Session × AuthClient :=
  match ps r.body with
  | some session => (.ok session, { c with session := some session })
  | none =>
    match pe r.body with
    | some e => (.error (.authError r.status e.message), c)
    | none => (.error (.authError r.status r.body), c)

/-- AuthClient::send_login_email_with_magic_link response resolution
(client.rs lines 415-433): no-content success on 2xx, otherwise envelope then
raw-body fallback. -/
def send_login_email_with_magic_link (pe : String → Option SupabaseHTTPError)
    (c : AuthClient) (r : HttpResponse) : Except Error Unit × AuthClient :=
  if isSuccessStatus r.status then (.ok (), c)
  else
    match pe r.body with
    | some e => (.error (.authError r.status e.message), c)
    | none => (.error (.authError r.status r.body), c)

/-- AuthClient::send_sms_with_otp response resolution (client.rs lines
459-479): on a 2xx status parse the body as OTPResponse, the question-mark
operator turning a parse failure into a serialization error; on a non-2xx
status, envelope then raw-body fallback. -/
def send_sms_with_otp (po : String → Option OTPResponse)
    (pe : String → Option SupabaseHTTPError)
    (c : AuthClient) (r : HttpResponse) : Except Error OTPResponse × AuthClient :=
  if isSuccessStatus r.status then
    match po r.body with
    | some message => (.ok message, c)
    | none => (.error .serdeError, c)
  else
    match pe r.body with
    | some e => (.error (.authError r.status e.message), c)
    | none => (.error (.authError r.status r.body), c)

/-- AuthClient::send_email_with_otp response resolution (client.rs lines
509-528): same pipeline as send_sms_with_otp. -/
def send_email_with_otp (po : String → Option OTPResponse)
    (pe : String → Option SupabaseHTTPError)
    (c : AuthClient) (r : HttpResponse) : Except Error OTPResponse × AuthClient :=
  if isSuccessStatus r.status then
    match po r.body with
    | some message => (.ok message, c)
    | none => (.error .serdeError, c)
  else
    match pe r.body with
    | some e => (.error (.authError r.status e.message), c)
    | none => (.error (.authError r.status r.body), c)

/-- AuthClient::get_user response resolution (client.rs lines 631-649): User
success shape, no cache write. -/
def get_user (pu : String → Option User)
    (pe : String → Option SupabaseHTTPError)
    (c : AuthClient) (r : HttpResponse) : Except Error User × AuthClient :=
  match pu r.body with
  | some user => (.ok user, c)
  | none =>
    match pe r.body with
    | some e => (.error (.authError r.status e.message), c)
    | none => (.error (.authError r.status r.body), c)

/-- AuthClient::update_user response resolution (client.rs lines 689-707):
User success shape, no cache write. -/
def update_user (pu : String → Option User)
    (pe : String → Option SupabaseHTTPError)
    (c : AuthClient) (r : HttpResponse) : Except Error User × AuthClient :=
  match pu r.body with
  | some user => (.ok user, c)
  | none =>
    match pe r.body with
    | some e => (.error (.authError r.status e.message), c)
    | none => (.error (.authError r.status r.body), c)

/-- AuthClient::login_with_id_token response resolution (client.rs lines
744-763): Session success shape, cached on success. -/
def login_with_id_token (ps : String → Option Session)
    (pe : String → Option SupabaseHTTPError)
    (c : AuthClient) (r : HttpResponse) : Except Error Session × AuthClient :=
  match ps r.body with
  | some session => (.ok session, { c with session := some session })
  | none =>
    match pe r.body with
    | some e => (.error (.authError r.status e.message), c)
    | none => (.error (.authError r.status r.body), c)

/-- AuthClient::invite_user_by_email response resolution (client.rs lines
808-826): User success shape, no cache write. -/
def invite_user_by_email (pu : String → Option User)
    (pe : String → Option SupabaseHTTPError)
    (c : AuthClient) (r : HttpResponse) : Except Error User × AuthClient :=
  match pu r.body with
  | some user => (.ok user, c)
  | none =>
    match pe r.body with
    | some e => (.error (.authError r.status e.message), c)
    | none => (.error (.authError r.status r.body), c)

/-- AuthClient::verify_otp response resolution (client.rs lines 858-876):
Session success shape.  The session cache is NOT written on success. -/
def verify_otp (ps : String → Option Session)
    (pe : String → Option SupabaseHTTPError)
    (c : AuthClient) (r : HttpResponse) : Except Error Session × AuthClient :=
  match ps r.body with
  | some session => (.ok session, c)
  | none =>
    match pe r.body with
    | some e => (.error (.authError r.status e.message), c)
    | none => (.error (.authError r.status r.body), c)

/-- AuthClient::get_health response resolution (client.rs lines 898-916). -/
def get_health (ph : String → Option AuthServerHealth)
    (pe : String → Option SupabaseHTTPError)
    (c : AuthClient) (r : HttpResponse) :
    Except Error AuthServerHealth × AuthClient :=
  match ph r.body with
  | some health => (.ok health, c)
  | none =>
    match pe r.body with
    | some e => (.error (.authError r.status e.message), c)
    | none => (.error (.authError r.status r.body), c)

/-- AuthClient::get_settings response resolution (client.rs lines 938-956). -/
def get_settings (pg : String → Option AuthServerSettings)
    (pe : String → Option SupabaseHTTPError)
    (c : AuthClient) (r : HttpResponse) :
    Except Error AuthServerSettings × AuthClient :=
  match pg r.body with
  | some settings => (.ok settings, c)
  | none =>
    match pe r.body with
    | some e => (.error (.authError r.status e.message), c)
    | none => (.error (.authError r.status r.body), c)

/-- AuthClient::exchange_token_for_session response resolution (client.rs
lines 992-1010): Session success shape.  The session cache is NOT written on
success. -/
def exchange_token_for_session (ps : String → Option Session)
    (pe : String → Option SupabaseHTTPError)
    (c : AuthClient) (r : HttpResponse) : Except Error Session × AuthClient :=
  match ps r.body with
  | some session => (.ok session, c)
  | none =>
    match pe r.body with
    | some e => (.error (.authError r.status e.message), c)
    | none => (.error (.authError r.status r.body), c)

/-- AuthClient::refresh_session (client.rs lines 1013-1015): delegates to
exchange_token_for_session. -/
def refresh_session (ps : String → Option Session)
    (pe : String → Option SupabaseHTTPError)
    (c : AuthClient) (r : HttpResponse) : Except Error Session × AuthClient :=
  exchange_token_for_session ps pe c r

/-- AuthClient::reset_password_for_email response resolution (client.rs lines
1052-1069): no-content success on 2xx, otherwise envelope then raw body. -/
def reset_password_for_email (pe : String → Option SupabaseHTTPError)
    (c : AuthClient) (r : HttpResponse) : Except Error Unit × AuthClient :=
  if isSuccessStatus r.status then (.ok (), c)
  else
    match pe r.body with
    | some e => (.error (.authError r.status e.message), c)
    | none => (.error (.authError r.status r.body), c)

/-- AuthClient::resend response resolution (client.rs lines 1099-1116):
no-content success on 2xx, otherwise envelope then raw body. -/
def resend (pe : String → Option SupabaseHTTPError)
    (c : AuthClient) (r : HttpResponse) : Except Error Unit × AuthClient :=
  if isSuccessStatus r.status then (.ok (), c)
  else
    match pe r.body with
    | some e => (.error (.authError r.status e.message), c)
    | none => (.error (.authError r.status r.body), c)

/-- AuthClient::logout response resolution (client.rs lines 1147-1165): on a
2xx status clear the cached session and succeed; otherwise envelope then raw
body, leaving the cache untouched. -/
def logout (pe : String → Option SupabaseHTTPError)
    (c : AuthClient) (r : HttpResponse) : Except Error Unit × AuthClient :=
  if isSuccessStatus r.status then (.ok (), { c with session := none })
  else
    match pe r.body with
    | some e => (.error (.authError r.status e.message), c)
    | none => (.error (.authError r.status r.body), c)

/-- AuthClient::sso response resolution (client.rs lines 1194-1213): on a 4xx
or 5xx status, envelope then raw-body error; otherwise return the effective
redirect URL of the response. -/
def sso (pe : String → Option SupabaseHTTPError)
    (c : AuthClient) (r : HttpResponse) : Except Error String × AuthClient :=
  if isServerErrorStatus r.status || isClientErrorStatus r.status then
    match pe r.body with
    | some e => (.error (.authError r.status e.message), c)
    | none => (.error (.authError r.status r.body), c)
  else (.ok r.url, c)

/-- Modelled from the spec: an OAuth provider identifier, rendered into the
provider query parameter by its Display form. -/
structure Provider where
  name : String
  deriving DecidableEq, Repr

/-- Display rendering of a provider identifier. -/
def Provider.toString (p : Provider) : String := p.name

/-- The models::LoginWithOAuthOptions record, field names from the source doc example:
extra query parameters, redirect target, scopes string and the browser
redirect flag. -/
structure LoginWithOAuthOptions where
  query_params : Option (List (String × String))
  redirect_to : Option String
  scopes : Option String
  skip_brower_redirect : Option Bool
  deriving DecidableEq, Repr

/-- A parsed URL: its authorize-endpoint base and the query parameter pairs
appended by Url::parse_with_params, in order. -/
structure Url where
  base : String
  params : List (String × String)
  deriving DecidableEq, Repr

/-- The models::OAuthResponse record: the constructed URL plus the provider. -/
structure OAuthResponse where
  url : Url
  provider : Provider
  deriving DecidableEq, Repr

/-- The query-parameter list built by AuthClient::login_with_oauth (client.rs
lines 554-569): always the provider pair; with options, additionally the
email_redirect_to pair when a redirect target is supplied, then every pair of
the extra query_params map. -/
def oauthQueryParams (provider : Provider)
    (options : Option LoginWithOAuthOptions) : List (String × String) :=
  match options with
  | none => [("provider", provider.toString)]
  | some o =>
    let params := [("provider", provider.toString)]
    let params :=
      match o.redirect_to with
      | some redirect => params ++ [("email_redirect_to", redirect)]
      | none => params
    match o.query_params with
    | some extra => params ++ extra
    | none => params

/-- AuthClient::login_with_oauth (client.rs lines 549-578).  Url::parse is
external; its success on the authorize base string is supplied as the
urlParseOk oracle, a failure becoming ParseUrlError. -/
def login_with_oauth (urlParseOk : String → Bool) (c : AuthClient)
    (provider : Provider) (options : Option LoginWithOAuthOptions) :
    Except Error OAuthResponse :=
  let base := c.project_url ++ AUTH_V1 ++ "/authorize"
  if urlParseOk base then
    .ok { url := { base := base, params := oauthQueryParams provider options }
          provider := provider }
  else .error .parseUrlError

/-- AuthClient::sign_up_with_oauth (client.rs lines 598-604): delegates to
login_with_oauth. -/
def sign_up_with_oauth (urlParseOk : String → Bool) (c : AuthClient)
    (provider : Provider) (options : Option LoginWithOAuthOptions) :
    Except Error OAuthResponse :=
  login_with_oauth urlParseOk c provider options

/-- One client operation together with the observed response and the parse
oracles it consults: the alphabet of operation traces. -/
inductive Op where
  | loginWithEmail (ps : String → Option Session)
      (pe : String → Option SupabaseHTTPError) (r : HttpResponse)
  | loginWithPhone (ps : String → Option Session)
      (pe : String → Option SupabaseHTTPError) (r : HttpResponse)
  | signUpWithEmailAndPassword (ps : String → Option Session)
      (pc : String → Option EmailSignUpConfirmation)
      (pe : String → Option SupabaseHTTPError) (r : HttpResponse)
  | signUpWithPhoneAndPassword (ps : String → Option Session)
      (pe : String → Option SupabaseHTTPError) (r : HttpResponse)
  | loginAnonymously (ps : String → Option Session)
      (pe : String → Option SupabaseHTTPError) (r : HttpResponse)
  | sendLoginEmailWithMagicLink (pe : String → Option SupabaseHTTPError)
      (r : HttpResponse)
  | sendSmsWithOtp (po : String → Option OTPResponse)
      (pe : String → Option SupabaseHTTPError) (r : HttpResponse)
  | sendEmailWithOtp (po : String → Option OTPResponse)
      (pe : String → Option SupabaseHTTPError) (r : HttpResponse)
  | getUser (pu : String → Option User)
      (pe : String → Option SupabaseHTTPError) (r : HttpResponse)
  | updateUser (pu : String → Option User)
      (pe : String → Option SupabaseHTTPError) (r : HttpResponse)
  | loginWithIdToken (ps : String → Option Session)
      (pe : String → Option SupabaseHTTPError) (r : HttpResponse)
  | inviteUserByEmail (pu : String → Option User)
      (pe : String → Option SupabaseHTTPError) (r : HttpResponse)
  | verifyOtp (ps : String → Option Session)
      (pe : String → Option SupabaseHTTPError) (r : HttpResponse)
  | getHealth (ph : String → Option AuthServerHealth)
      (pe : String → Option SupabaseHTTPError) (r : HttpResponse)
  | getSettings (pg : String → Option AuthServerSettings)
      (pe : String → Option SupabaseHTTPError) (r : HttpResponse)
  | exchangeTokenForSession (ps : String → Option Session)
      (pe : String → Option SupabaseHTTPError) (r : HttpResponse)
  | refreshSession (ps : String → Option Session)
      (pe : String → Option SupabaseHTTPError) (r : HttpResponse)
  | resetPasswordForEmail (pe : String → Option SupabaseHTTPError)
      (r : HttpResponse)
  | resendOp (pe : String → Option SupabaseHTTPError) (r : HttpResponse)
  | logoutOp (pe : String → Option SupabaseHTTPError) (r : HttpResponse)
  | ssoOp (pe : String → Option SupabaseHTTPError) (r : HttpResponse)

/-- Run one operation against the client state, keeping the resulting state
(the typed result is discarded for trace purposes). -/
def step (c : AuthClient) (op : Op) : AuthClient :=
  match op with
  | .loginWithEmail ps pe r => (login_with_email ps pe c r).2
  | .loginWithPhone ps pe r => (login_with_phone ps pe c r).2
  | .signUpWithEmailAndPassword ps pc pe r =>
      (sign_up_with_email_and_password ps pc pe c r).2
  | .signUpWithPhoneAndPassword ps pe r =>
      (sign_up_with_phone_and_password ps pe c r).2
  | .loginAnonymously ps pe r => (login_anonymously ps pe c r).2
  | .sendLoginEmailWithMagicLink pe r =>
      (send_login_email_with_magic_link pe c r).2
  | .sendSmsWithOtp po pe r => (send_sms_with_otp po pe c r).2
  | .sendEmailWithOtp po pe r => (send_email_with_otp po pe c r).2
  | .getUser pu pe r => (get_user pu pe c r).2
  | .updateUser pu pe r => (update_user pu pe c r).2
  | .loginWithIdToken ps pe r => (login_with_id_token ps pe c r).2
  | .inviteUserByEmail pu pe r => (invite_user_by_email pu pe c r).2
  | .verifyOtp ps pe r => (verify_otp ps pe c r).2
  | .getHealth ph pe r => (get_health ph pe c r).2
  | .getSettings pg pe r => (get_settings pg pe c r).2
  | .exchangeTokenForSession ps pe r =>
      (exchange_token_for_session ps pe c r).2
  | .refreshSession ps pe r => (refresh_session ps pe c r).2
  | .resetPasswordForEmail pe r => (reset_password_for_email pe c r).2
  | .resendOp pe r => (resend pe c r).2
  | .logoutOp pe r => (logout pe c r).2
  | .ssoOp pe r => (sso pe c r).2

/-- Spec-side model of the cache effect of one operation: a successful
email/phone/anonymous/ID-token login sets the cache wholesale to the parsed
session, a successful logout clears it, and every other operation leaves it
unchanged. -/
def cacheStep (cur : Option Session) (op : Op) : Option Session :=
  match op with
  | .loginWithEmail ps _ r =>
      match ps r.body with
      | some s => some s
      | none => cur
  | .loginWithPhone ps _ r =>
      match ps r.body with
      | some s => some s
      | none => cur
  | .loginAnonymously ps _ r =>
      match ps r.body with
      | some s => some s
      | none => cur
  | .loginWithIdToken ps _ r =>
      match ps r.body with
      | some s => some s
      | none => cur
  | .logoutOp _ r => if isSuccessStatus r.status then none else cur
  | _ => cur

/-- Sample user for concrete evaluations. -/
def sampleUser : User :=
  { id := "u1", email := "one@example.com", phone := "111" }

/-- Sample session for concrete evaluations. -/
def sampleSession : Session :=
  { access_token := "at1", refresh_token := "rt1", expires_in := 3600
    user := sampleUser }

/-- A second, distinct sample session. -/
def sampleSession2 : Session :=
  { access_token := "at2", refresh_token := "rt2", expires_in := 3600
    user := sampleUser }

/-- Sample OTP acknowledgement payload. -/
def sampleOtp : OTPResponse := { payload := "otp-sent" }

/-- Sample health payload. -/
def sampleHealth : AuthServerHealth := { payload := "healthy" }

/-- Sample settings payload. -/
def sampleSettings : AuthServerSettings := { payload := "settings" }

/-- Sample client with an empty session cache. -/
def sampleClient : AuthClient :=
  { project_url := "https://proj.example", api_key := "key"
    jwt_secret := "jwt", session := none }

/-- Sample client whose cache holds sampleSession. -/
def clientWithSession : AuthClient :=
  { sampleClient with session := some sampleSession }

/-- Sample provider identifier. -/
def sampleProvider : Provider := { name := "github" }

/-- The session cache is untouched by sign_up_with_email_and_password. -/
theorem sign_up_email_frame (ps : String → Option Session)
    (pc : String → Option EmailSignUpConfirmation)
    (pe : String → Option SupabaseHTTPError) (c : AuthClient)
    (r : HttpResponse) : (sign_up_with_email_and_password ps pc pe c r).2 = c := by
  unfold sign_up_with_email_and_password
  rcases ps r.body with _ | s
  · rcases pc r.body with _ | conf
    · rcases pe r.body with _ | e <;> rfl
    · rfl
  · rfl

/-- The session cache is untouched by sign_up_with_phone_and_password. -/
theorem sign_up_phone_frame (ps : String → Option Session)
    (pe : String → Option SupabaseHTTPError) (c : AuthClient)
    (r : HttpResponse) : (sign_up_with_phone_and_password ps pe c r).2 = c := by
  unfold sign_up_with_phone_and_password
  rcases ps r.body with _ | s
  · rcases pe r.body with _ | e <;> rfl
  · rfl

/-- The session cache is untouched by verify_otp. -/
theorem verify_otp_frame (ps : String → Option Session)
    (pe : String → Option SupabaseHTTPError) (c : AuthClient)
    (r : HttpResponse) : (verify_otp ps pe c r).2 = c := by
  unfold verify_otp
  rcases ps r.body with _ | s
  · rcases pe r.body with _ | e <;> rfl
  · rfl

/-- The session cache is untouched by exchange_token_for_session. -/
theorem exchange_token_frame (ps : String → Option Session)
    (pe : String → Option SupabaseHTTPError) (c : AuthClient)
    (r : HttpResponse) : (exchange_token_for_session ps pe c r).2 = c := by
  unfold exchange_token_for_session
  rcases ps r.body with _ | s
  · rcases pe r.body with _ | e <;> rfl
  · rfl

/-- The session cache is untouched by get_user. -/
theorem get_user_frame (pu : String → Option User)
    (pe : String → Option SupabaseHTTPError) (c : AuthClient)
    (r : HttpResponse) : (get_user pu pe c r).2 = c := by
  unfold get_user
  rcases pu r.body with _ | u
  · rcases pe r.body with _ | e <;> rfl
  · rfl

/-- The session cache is untouched by update_user. -/
theorem update_user_frame (pu : String → Option User)
    (pe : String → Option SupabaseHTTPError) (c : AuthClient)
    (r : HttpResponse) : (update_user pu pe c r).2 = c := by
  unfold update_user
  rcases pu r.body with _ | u
  · rcases pe r.body with _ | e <;> rfl
  · rfl

/-- The session cache is untouched by invite_user_by_email. -/
theorem invite_user_frame (pu : String → Option User)
    (pe : String → Option SupabaseHTTPError) (c : AuthClient)
    (r : HttpResponse) : (invite_user_by_email pu pe c r).2 = c := by
  unfold invite_user_by_email
  rcases pu r.body with _ | u
  · rcases pe r.body with _ | e <;> rfl
  · rfl

/-- The session cache is untouched by get_health. -/
theorem get_health_frame (ph : String → Option AuthServerHealth)
    (pe : String → Option SupabaseHTTPError) (c : AuthClient)
    (r : HttpResponse) : (get_health ph pe c r).2 = c := by
  unfold get_health
  rcases ph r.body with _ | h
  · rcases pe r.body with _ | e <;> rfl
  · rfl

/-- The session cache is untouched by get_settings. -/
theorem get_settings_frame (pg : String → Option AuthServerSettings)
    (pe : String → Option SupabaseHTTPError) (c : AuthClient)
    (r : HttpResponse) : (get_settings pg pe c r).2 = c := by
  unfold get_settings
  rcases pg r.body with _ | g
  · rcases pe r.body with _ | e <;> rfl
  · rfl

/-- The session cache is untouched by send_login_email_with_magic_link. -/
theorem magic_link_frame (pe : String → Option SupabaseHTTPError)
    (c : AuthClient) (r : HttpResponse) :
    (send_login_email_with_magic_link pe c r).2 = c := by
  unfold send_login_email_with_magic_link
  rcases isSuccessStatus r.status with _ | _
  · rcases pe r.body with _ | e <;> rfl
  · rfl

/-- The session cache is untouched by reset_password_for_email. -/
theorem reset_password_frame (pe : String → Option SupabaseHTTPError)
    (c : AuthClient) (r : HttpResponse) :
    (reset_password_for_email pe c r).2 = c := by
  unfold reset_password_for_email
  rcases isSuccessStatus r.status with _ | _
  · rcases pe r.body with _ | e <;> rfl
  · rfl

/-- The session cache is untouched by resend. -/
theorem resend_frame (pe : String → Option SupabaseHTTPError)
    (c : AuthClient) (r : HttpResponse) : (resend pe c r).2 = c := by
  unfold resend
  rcases isSuccessStatus r.status with _ | _
  · rcases pe r.body with _ | e <;> rfl
  · rfl

/-- The session cache is untouched by send_sms_with_otp. -/
theorem send_sms_frame (po : String → Option OTPResponse)
    (pe : String → Option SupabaseHTTPError) (c : AuthClient)
    (r : HttpResponse) : (send_sms_with_otp po pe c r).2 = c := by
  unfold send_sms_with_otp
  rcases isSuccessStatus r.status with _ | _
  · rcases pe r.body with _ | e <;> rfl
  · rcases po r.body with _ | m <;> rfl

/-- The session cache is untouched by send_email_with_otp. -/
theorem send_email_frame (po : String → Option OTPResponse)
    (pe : String → Option SupabaseHTTPError) (c : AuthClient)
    (r : HttpResponse) : (send_email_with_otp po pe c r).2 = c := by
  unfold send_email_with_otp
  rcases isSuccessStatus r.status with _ | _
  · rcases pe r.body with _ | e <;> rfl
  · rcases po r.body with _ | m <;> rfl

/-- The session cache is untouched by sso. -/
theorem sso_frame (pe : String → Option SupabaseHTTPError)
    (c : AuthClient) (r : HttpResponse) : (sso pe c r).2 = c := by
  unfold sso
  rcases isServerErrorStatus r.status || isClientErrorStatus r.status with _ | _
  · rfl
  · rcases pe r.body with _ | e <;> rfl

/-- The state effect of login_with_email: the cache is set wholesale to the
parsed session exactly when the Session parse succeeds. -/
theorem login_with_email_state (ps : String → Option Session)
    (pe : String → Option SupabaseHTTPError) (c : AuthClient)
    (r : HttpResponse) :
    (login_with_email ps pe c r).2 =
      match ps r.body with
      | some s => { c with session := some s }
      | none => c := by
  unfold login_with_email
  rcases ps r.body with _ | s
  · rcases pe r.body with _ | e <;> rfl
  · rfl

/-- The state effect of login_with_phone. -/
theorem login_with_phone_state (ps : String → Option Session)
    (pe : String → Option SupabaseHTTPError) (c : AuthClient)
    (r : HttpResponse) :
    (login_with_phone ps pe c r).2 =
      match ps r.body with
      | some s => { c with session := some s }
      | none => c := by
  unfold login_with_phone
  rcases ps r.body with _ | s
  · rcases pe r.body with _ | e <;> rfl
  · rfl

/-- The state effect of login_anonymously. -/
theorem login_anonymously_state (ps : String → Option Session)
    (pe : String → Option SupabaseHTTPError) (c : AuthClient)
    (r : HttpResponse) :
    (login_anonymously ps pe c r).2 =
      match ps r.body with
      | some s => { c with session := some s }
      | none => c := by
  unfold login_anonymously
  rcases ps r.body with _ | s
  · rcases pe r.body with _ | e <;> rfl
  · rfl

/-- The state effect of login_with_id_token. -/
theorem login_with_id_token_state (ps : String → Option Session)
    (pe : String → Option SupabaseHTTPError) (c : AuthClient)
    (r : HttpResponse) :
    (login_with_id_token ps pe c r).2 =
      match ps r.body with
      | some s => { c with session := some s }
      | none => c := by
  unfold login_with_id_token
  rcases ps r.body with _ | s
  · rcases pe r.body with _ | e <;> rfl
  · rfl

/-- The state effect of logout: the cache is cleared exactly on a 2xx
status. -/
theorem logout_state (pe : String → Option SupabaseHTTPError)
    (c : AuthClient) (r : HttpResponse) :
    (logout pe c r).2 =
      if isSuccessStatus r.status then { c with session := none } else c := by
  unfold logout
  rcases isSuccessStatus r.status with _ | _
  · rcases pe r.body with _ | e <;> rfl
  · rfl

/-- Whether a construction result is a configuration error. -/
def resultIsConfigError : Except Error AuthClient → Bool
  | .error (.configError _) => true
  | _ => false

/-- The error outcome prescribed by steps 3-4 of the resolution protocol:
the envelope message when the envelope parses, the raw body text otherwise,
in both cases carrying the original status code. -/
def envelopeError (pe : String → Option SupabaseHTTPError)
    (r : HttpResponse) : Error :=
  match pe r.body with
  | some e => .authError r.status e.message
  | none => .authError r.status r.body

/-- A Session parse attempt that always fails. -/
def psNone : String → Option Session := fun _ => none

/-- A Session parse attempt that always yields sampleSession. -/
def psSome : String → Option Session := fun _ => some sampleSession

/-- A confirmation parse attempt that always fails. -/
def pcNone : String → Option EmailSignUpConfirmation := fun _ => none

/-- A User parse attempt that always fails. -/
def puNone : String → Option User := fun _ => none

/-- A User parse attempt that always yields sampleUser. -/
def puSome : String → Option User := fun _ => some sampleUser

/-- A health parse attempt that always fails. -/
def phNone : String → Option AuthServerHealth := fun _ => none

/-- A health parse attempt that always yields sampleHealth. -/
def phSome : String → Option AuthServerHealth := fun _ => some sampleHealth

/-- A settings parse attempt that always fails. -/
def pgNone : String → Option AuthServerSettings := fun _ => none

/-- A settings parse attempt that always yields sampleSettings. -/
def pgSome : String → Option AuthServerSettings := fun _ => some sampleSettings

/-- An OTP parse attempt that always fails. -/
def poNone : String → Option OTPResponse := fun _ => none

/-- An OTP parse attempt that always yields sampleOtp. -/
def poSome : String → Option OTPResponse := fun _ => some sampleOtp

/-- An envelope parse attempt that always fails. -/
def peNone : String → Option SupabaseHTTPError := fun _ => none

/-- An envelope parse attempt that always yields the message boom. -/
def peSome : String → Option SupabaseHTTPError :=
  fun _ => some { message := "boom" }

/-- A sample 200 response. -/
def r200 : HttpResponse :=
  { status := 200, url := "https://final.example", body := "ok-body" }

/-- A sample 500 response. -/
def r500 : HttpResponse :=
  { status := 500, url := "", body := "bad-body" }

/-- An environment with no variables set. -/
def envNone : String → Option String := fun _ => none

/-- An environment in which every variable is set. -/
def envFull : String → Option String := fun _ => some "value"

/-- Claim C9: refresh_session is a pure alias of exchange_token_for_session — for
every refresh-token parse oracle, client state and response, the two
operations return the same result and produce the same client state. -/
theorem c9_refresh_session_is_exchange (ps : String → Option Session)
    (pe : String → Option SupabaseHTTPError) (c : AuthClient)
    (r : HttpResponse) :
    refresh_session ps pe c r = exchange_token_for_session ps pe c r := rfl

/-- Claim C6: after a logout call that observes a 2xx status, the operation
succeeds, the cached session is cleared, and is_authenticated is false. -/
theorem c6_logout_clears_session (pe : String → Option SupabaseHTTPError)
    (c : AuthClient) (r : HttpResponse)
    (h : isSuccessStatus r.status = true) :
    (logout pe c r).1 = .ok () ∧ (logout pe c r).2.session = none ∧
      (logout pe c r).2.is_authenticated = false := by
  simp [logout, AuthClient.is_authenticated, h]

/-- Witness for C6 at a concrete 200 response and a client holding a
session. -/
theorem c6_witness :
    (logout peNone clientWithSession r200).1 = .ok () ∧
      (logout peNone clientWithSession r200).2.session = none ∧
      (logout peNone clientWithSession r200).2.is_authenticated = false :=
  c6_logout_clears_session peNone clientWithSession r200 (by decide)

/-- Claim C8: the read-only operations get_user, get_health and get_settings, and
both sign-up flows (in particular when they return a pending confirmation
rather than an active session), leave the cached session unchanged. -/
theorem c8_readonly_and_signup_frame (ps : String → Option Session)
    (pc : String → Option EmailSignUpConfirmation)
    (pu : String → Option User) (ph : String → Option AuthServerHealth)
    (pg : String → Option AuthServerSettings)
    (pe : String → Option SupabaseHTTPError) (c : AuthClient)
    (r : HttpResponse) :
    (get_user pu pe c r).2 = c ∧
      (get_health ph pe c r).2 = c ∧
      (get_settings pg pe c r).2 = c ∧
      (sign_up_with_email_and_password ps pc pe c r).2 = c ∧
      (sign_up_with_phone_and_password ps pe c r).2 = c :=
  ⟨get_user_frame pu pe c r, get_health_frame ph pe c r,
    get_settings_frame pg pe c r, sign_up_email_frame ps pc pe c r,
    sign_up_phone_frame ps pe c r⟩

/-- One-step agreement between the implementation and the spec-side cache
model: running any single operation changes the cached session exactly as
cacheStep prescribes. -/
theorem step_session (c : AuthClient) (op : Op) :
    (step c op).session = cacheStep c.session op := by
  cases op with
  | loginWithEmail ps pe r =>
      show (login_with_email ps pe c r).2.session = _
      rw [login_with_email_state]
      simp only [cacheStep]
      rcases ps r.body with _ | s <;> rfl
  | loginWithPhone ps pe r =>
      show (login_with_phone ps pe c r).2.session = _
      rw [login_with_phone_state]
      simp only [cacheStep]
      rcases ps r.body with _ | s <;> rfl
  | signUpWithEmailAndPassword ps pc pe r =>
      show (sign_up_with_email_and_password ps pc pe c r).2.session = _
      rw [sign_up_email_frame]; rfl
  | signUpWithPhoneAndPassword ps pe r =>
      show (sign_up_with_phone_and_password ps pe c r).2.session = _
      rw [sign_up_phone_frame]; rfl
  | loginAnonymously ps pe r =>
      show (login_anonymously ps pe c r).2.session = _
      rw [login_anonymously_state]
      simp only [cacheStep]
      rcases ps r.body with _ | s <;> rfl
  | sendLoginEmailWithMagicLink pe r =>
      show (send_login_email_with_magic_link pe c r).2.session = _
      rw [magic_link_frame]; rfl
  | sendSmsWithOtp po pe r =>
      show (send_sms_with_otp po pe c r).2.session = _
      rw [send_sms_frame]; rfl
  | sendEmailWithOtp po pe r =>
      show (send_email_with_otp po pe c r).2.session = _
      rw [send_email_frame]; rfl
  | getUser pu pe r =>
      show (get_user pu pe c r).2.session = _
      rw [get_user_frame]; rfl
  | updateUser pu pe r =>
      show (update_user pu pe c r).2.session = _
      rw [update_user_frame]; rfl
  | loginWithIdToken ps pe r =>
      show (login_with_id_token ps pe c r).2.session = _
      rw [login_with_id_token_state]
      simp only [cacheStep]
      rcases ps r.body with _ | s <;> rfl
  | inviteUserByEmail pu pe r =>
      show (invite_user_by_email pu pe c r).2.session = _
      rw [invite_user_frame]; rfl
  | verifyOtp ps pe r =>
      show (verify_otp ps pe c r).2.session = _
      rw [verify_otp_frame]; rfl
  | getHealth ph pe r =>
      show (get_health ph pe c r).2.session = _
      rw [get_health_frame]; rfl
  | getSettings pg pe r =>
      show (get_settings pg pe c r).2.session = _
      rw [get_settings_frame]; rfl
  | exchangeTokenForSession ps pe r =>
      show (exchange_token_for_session ps pe c r).2.session = _
      rw [exchange_token_frame]; rfl
  | refreshSession ps pe r =>
      show (exchange_token_for_session ps pe c r).2.session = _
      rw [exchange_token_frame]; rfl
  | resetPasswordForEmail pe r =>
      show (reset_password_for_email pe c r).2.session = _
      rw [reset_password_frame]; rfl
  | resendOp pe r =>
      show (resend pe c r).2.session = _
      rw [resend_frame]; rfl
  | logoutOp pe r =>
      show (logout pe c r).2.session = _
      rw [logout_state]
      simp only [cacheStep]
      rcases isSuccessStatus r.status with _ | _ <;> rfl
  | ssoOp pe r =>
      show (sso pe c r).2.session = _
      rw [sso_frame]; rfl

/-- Claim C2 (amended): after any sequence of client operations, the cached session
equals the fold of the cache model over the trace — set wholesale by each
successful email/phone/anonymous/ID-token login, cleared by each successful
logout, and left unchanged by every other operation.  In particular
exchange_token_for_session / refresh_session and verify_otp do NOT write the
cache, so the cache corresponds to the most recent successful cache-writing
login, not to the most recent refresh.  The cache is never written
field-by-field: every write is wholesale. -/
theorem c2_cache_invariant (ops : List Op) (c : AuthClient) :
    (List.foldl step c ops).session = List.foldl cacheStep c.session ops := by
  induction ops generalizing c with
  | nil => rfl
  | cons op ops ih =>
      rw [List.foldl_cons, List.foldl_cons, ih, step_session]

/-- Counterexample to C2 as stated: a successful exchange_token_for_session
call returns a fresh session yet leaves the previously cached session in
place, so the cache does not equal the session just returned. -/
theorem c2_counterexample :
    (exchange_token_for_session (fun _ => some sampleSession2) peNone
        clientWithSession r200).1 = .ok sampleSession2 ∧
      (exchange_token_for_session (fun _ => some sampleSession2) peNone
          clientWithSession r200).2.session = some sampleSession ∧
      sampleSession ≠ sampleSession2 :=
  ⟨rfl, rfl, by decide⟩

/-- Claim C3 (amended): after every successful email/phone password login, ID-token
login, or anonymous sign-in, the cached session is set to the session just
returned, so the session accessor yields that session and is_authenticated is
true; verify_otp, by contrast, returns the parsed session without writing the
cache at all. -/
theorem c3_successful_logins_cache_session (ps : String → Option Session)
    (pe : String → Option SupabaseHTTPError) (c : AuthClient)
    (r : HttpResponse) (s : Session) (hs : ps r.body = some s) :
    (login_with_email ps pe c r).1 = .ok s ∧
      (login_with_email ps pe c r).2.session = some s ∧
      (login_with_email ps pe c r).2.is_authenticated = true ∧
      (login_with_phone ps pe c r).1 = .ok s ∧
      (login_with_phone ps pe c r).2.session = some s ∧
      (login_with_phone ps pe c r).2.is_authenticated = true ∧
      (login_anonymously ps pe c r).1 = .ok s ∧
      (login_anonymously ps pe c r).2.session = some s ∧
      (login_anonymously ps pe c r).2.is_authenticated = true ∧
      (login_with_id_token ps pe c r).1 = .ok s ∧
      (login_with_id_token ps pe c r).2.session = some s ∧
      (login_with_id_token ps pe c r).2.is_authenticated = true ∧
      (verify_otp ps pe c r).1 = .ok s ∧
      (verify_otp ps pe c r).2 = c := by
  unfold login_with_email login_with_phone login_anonymously
    login_with_id_token verify_otp AuthClient.is_authenticated
  rw [hs]
  exact ⟨rfl, rfl, rfl, rfl, rfl, rfl, rfl, rfl, rfl, rfl, rfl, rfl, rfl, rfl⟩

/-- Witness for C3 at a concrete session-shaped body. -/
theorem c3_witness :
    (login_with_email psSome peNone sampleClient r200).1 = .ok sampleSession ∧
      (login_with_email psSome peNone sampleClient r200).2.session
        = some sampleSession ∧
      (login_with_email psSome peNone sampleClient r200).2.is_authenticated
        = true ∧
      (login_with_phone psSome peNone sampleClient r200).1 = .ok sampleSession ∧
      (login_with_phone psSome peNone sampleClient r200).2.session
        = some sampleSession ∧
      (login_with_phone psSome peNone sampleClient r200).2.is_authenticated
        = true ∧
      (login_anonymously psSome peNone sampleClient r200).1
        = .ok sampleSession ∧
      (login_anonymously psSome peNone sampleClient r200).2.session
        = some sampleSession ∧
      (login_anonymously psSome peNone sampleClient r200).2.is_authenticated
        = true ∧
      (login_with_id_token psSome peNone sampleClient r200).1
        = .ok sampleSession ∧
      (login_with_id_token psSome peNone sampleClient r200).2.session
        = some sampleSession ∧
      (login_with_id_token psSome peNone sampleClient r200).2.is_authenticated
        = true ∧
      (verify_otp psSome peNone sampleClient r200).1 = .ok sampleSession ∧
      (verify_otp psSome peNone sampleClient r200).2 = sampleClient :=
  c3_successful_logins_cache_session psSome peNone sampleClient r200
    sampleSession rfl

/-- Counterexample to C3 as stated: a successful verify_otp call returns a
session, yet the cache stays empty — the session accessor yields none and
is_authenticated is false, where the claim demands the returned session and
true. -/
theorem c3_counterexample :
    (verify_otp psSome peNone sampleClient r200).1 = .ok sampleSession ∧
      (verify_otp psSome peNone sampleClient r200).2.session = none ∧
      (verify_otp psSome peNone sampleClient r200).2.is_authenticated
        = false :=
  ⟨rfl, rfl, rfl⟩

/-- Sample OAuth options supplying a redirect target and scopes but no extra
query parameters, as in the source doc example. -/
def sampleOAuthOptions : LoginWithOAuthOptions :=
  { query_params := none
    redirect_to := some "http://localhost"
    scopes := some "repo gist notifications"
    skip_brower_redirect := none }

/-- Claim C4 (amended): with no options the authorize URL query is exactly the
provider pair; with options, the query is exactly the provider pair, then the
email_redirect_to pair when a redirect target is supplied, then every extra
query parameter, in order and without duplication — but the scopes option is
ignored and never reaches the URL. -/
theorem c4_oauth_query_params (p : Provider) (redirect : String)
    (extra : List (String × String)) (sc : Option String) (sk : Option Bool)
    (c : AuthClient) :
    oauthQueryParams p none = [("provider", p.toString)] ∧
      oauthQueryParams p (some ⟨some extra, some redirect, sc, sk⟩)
        = ("provider", p.toString) :: ("email_redirect_to", redirect)
            :: extra ∧
      login_with_oauth (fun _ => true) c p none
        = .ok { url := { base := c.project_url ++ AUTH_V1 ++ "/authorize"
                         params := [("provider", p.toString)] }
                provider := p } := by
  refine ⟨rfl, ?_, rfl⟩
  simp [oauthQueryParams]

/-- Counterexample to C4 as stated: with a redirect target and scopes
supplied, the constructed query contains only the provider and redirect
pairs — the supplied scopes value is dropped from the URL. -/
theorem c4_counterexample :
    oauthQueryParams sampleProvider (some sampleOAuthOptions)
        = [("provider", "github"), ("email_redirect_to", "http://localhost")] ∧
      ("scopes", "repo gist notifications")
        ∉ oauthQueryParams sampleProvider (some sampleOAuthOptions) :=
  ⟨rfl, by decide⟩

/-- Claim C10: new_from_env reads SUPABASE_URL, SUPABASE_API_KEY and
SUPABASE_JWT_SECRET; it returns a configuration error whenever any one of the
three is absent, and succeeds exactly when all three are present. -/
theorem c10_new_from_env_requires_all (env : String → Option String) :
    (env "SUPABASE_URL" = none ∨ env "SUPABASE_API_KEY" = none ∨
        env "SUPABASE_JWT_SECRET" = none →
      resultIsConfigError (new_from_env env) = true) ∧
      (isOkResult (new_from_env env) = true ↔
        (env "SUPABASE_URL").isSome = true ∧
          (env "SUPABASE_API_KEY").isSome = true ∧
          (env "SUPABASE_JWT_SECRET").isSome = true) := by
  unfold new_from_env resultIsConfigError isOkResult
  rcases hu : env "SUPABASE_URL" with _ | u <;>
    rcases hk : env "SUPABASE_API_KEY" with _ | k <;>
      rcases hj : env "SUPABASE_JWT_SECRET" with _ | j <;>
        simp

/-- Witness for C10: the empty environment yields a configuration error and
the complete environment yields a client. -/
theorem c10_witness :
    resultIsConfigError (new_from_env envNone) = true ∧
      isOkResult (new_from_env envFull) = true := by
  have T1 := c10_new_from_env_requires_all envNone
  have T2 := c10_new_from_env_requires_all envFull
  exact ⟨T1.1 (Or.inl rfl), T2.2.mpr ⟨rfl, rfl, rfl⟩⟩

/-- Claim C1 (amended): for every JSON-body operation except the two OTP-send
operations, a body that parses as the expected success shape yields success
regardless of the HTTP status code; the OTP-send operations check the status
first and fail on every non-2xx response even when the body parses. -/
theorem c1_success_parse_wins (ps : String → Option Session)
    (pu : String → Option User) (pc : String → Option EmailSignUpConfirmation)
    (ph : String → Option AuthServerHealth)
    (pg : String → Option AuthServerSettings)
    (po : String → Option OTPResponse)
    (pe : String → Option SupabaseHTTPError) (c : AuthClient)
    (r : HttpResponse) (s : Session) (u : User) (hv : AuthServerHealth)
    (gv : AuthServerSettings)
    (hs : ps r.body = some s) (hu : pu r.body = some u)
    (hh : ph r.body = some hv) (hg : pg r.body = some gv)
    (hns : isSuccessStatus r.status = false) :
    (login_with_email ps pe c r).1 = .ok s ∧
      (login_with_phone ps pe c r).1 = .ok s ∧
      (sign_up_with_email_and_password ps pc pe c r).1
        = .ok (.sessionResult s) ∧
      (sign_up_with_phone_and_password ps pe c r).1 = .ok s ∧
      (login_anonymously ps pe c r).1 = .ok s ∧
      (login_with_id_token ps pe c r).1 = .ok s ∧
      (verify_otp ps pe c r).1 = .ok s ∧
      (exchange_token_for_session ps pe c r).1 = .ok s ∧
      (refresh_session ps pe c r).1 = .ok s ∧
      (get_user pu pe c r).1 = .ok u ∧
      (update_user pu pe c r).1 = .ok u ∧
      (invite_user_by_email pu pe c r).1 = .ok u ∧
      (get_health ph pe c r).1 = .ok hv ∧
      (get_settings pg pe c r).1 = .ok gv ∧
      isOkResult (send_sms_with_otp po pe c r).1 = false ∧
      isOkResult (send_email_with_otp po pe c r).1 = false := by
  unfold refresh_session
  unfold login_with_email login_with_phone sign_up_with_email_and_password
    sign_up_with_phone_and_password login_anonymously login_with_id_token
    verify_otp exchange_token_for_session get_user update_user
    invite_user_by_email get_health get_settings send_sms_with_otp
    send_email_with_otp
  rw [hs, hu, hh, hg, hns]
  rcases pe r.body with _ | e <;>
    exact ⟨rfl, rfl, rfl, rfl, rfl, rfl, rfl, rfl, rfl, rfl, rfl, rfl, rfl,
      rfl, rfl, rfl⟩

/-- Witness for C1 at success-shaped bodies on a 500 response. -/
theorem c1_witness :
    (login_with_email psSome peNone sampleClient r500).1 = .ok sampleSession ∧
      (get_user puSome peNone sampleClient r500).1 = .ok sampleUser ∧
      isOkResult (send_sms_with_otp poNone peNone sampleClient r500).1
        = false := by
  obtain ⟨h1, h2, h3, h4, h5, h6, h7, h8, h9, h10, h11, h12, h13, h14, h15,
    h16⟩ :=
    c1_success_parse_wins psSome puSome pcNone phSome pgSome poNone peNone
      sampleClient r500 sampleSession sampleUser sampleHealth sampleSettings
      rfl rfl rfl rfl (by decide)
  exact ⟨h1, h10, h15⟩

/-- Counterexample to C1 as stated: a 500 response whose body parses as the
OTP success shape still makes send_sms_with_otp fail — the status code is
checked before the success-shape parse for the OTP-send operations. -/
theorem c1_counterexample :
    poSome r500.body = some sampleOtp ∧
      (send_sms_with_otp poSome peNone sampleClient r500).1
        = .error (.authError 500 "bad-body") :=
  ⟨rfl, rfl⟩

/-- Claim C5 (amended): for every network-backed operation, when success-shape
resolution fails on an error-path response, the result is an authentication
error carrying the original status code and either the parsed envelope
message or the raw body text — except the OTP-send operations on a 2xx
response, where a body that fails to parse yields a serialization error
instead. -/
theorem c5_error_envelope (ps : String → Option Session)
    (pu : String → Option User) (pc : String → Option EmailSignUpConfirmation)
    (ph : String → Option AuthServerHealth)
    (pg : String → Option AuthServerSettings)
    (po : String → Option OTPResponse)
    (pe : String → Option SupabaseHTTPError) (c : AuthClient)
    (r r2 : HttpResponse)
    (hs : ps r.body = none) (hu : pu r.body = none) (hc : pc r.body = none)
    (hh : ph r.body = none) (hg : pg r.body = none)
    (hns : isSuccessStatus r.status = false)
    (herr : (isServerErrorStatus r.status || isClientErrorStatus r.status)
      = true)
    (h2 : isSuccessStatus r2.status = true) (hpo : po r2.body = none) :
    (login_with_email ps pe c r).1 = .error (envelopeError pe r) ∧
      (login_with_phone ps pe c r).1 = .error (envelopeError pe r) ∧
      (sign_up_with_email_and_password ps pc pe c r).1
        = .error (envelopeError pe r) ∧
      (sign_up_with_phone_and_password ps pe c r).1
        = .error (envelopeError pe r) ∧
      (login_anonymously ps pe c r).1 = .error (envelopeError pe r) ∧
      (login_with_id_token ps pe c r).1 = .error (envelopeError pe r) ∧
      (verify_otp ps pe c r).1 = .error (envelopeError pe r) ∧
      (exchange_token_for_session ps pe c r).1
        = .error (envelopeError pe r) ∧
      (refresh_session ps pe c r).1 = .error (envelopeError pe r) ∧
      (get_user pu pe c r).1 = .error (envelopeError pe r) ∧
      (update_user pu pe c r).1 = .error (envelopeError pe r) ∧
      (invite_user_by_email pu pe c r).1 = .error (envelopeError pe r) ∧
      (get_health ph pe c r).1 = .error (envelopeError pe r) ∧
      (get_settings pg pe c r).1 = .error (envelopeError pe r) ∧
      (send_login_email_with_magic_link pe c r).1
        = .error (envelopeError pe r) ∧
      (reset_password_for_email pe c r).1 = .error (envelopeError pe r) ∧
      (resend pe c r).1 = .error (envelopeError pe r) ∧
      (logout pe c r).1 = .error (envelopeError pe r) ∧
      (send_sms_with_otp po pe c r).1 = .error (envelopeError pe r) ∧
      (send_email_with_otp po pe c r).1 = .error (envelopeError pe r) ∧
      (sso pe c r).1 = .error (envelopeError pe r) ∧
      (send_sms_with_otp po pe c r2).1 = .error .serdeError ∧
      (send_email_with_otp po pe c r2).1 = .error .serdeError := by
  unfold refresh_session
  unfold login_with_email login_with_phone sign_up_with_email_and_password
    sign_up_with_phone_and_password login_anonymously login_with_id_token
    verify_otp exchange_token_for_session get_user update_user
    invite_user_by_email get_health get_settings
    send_login_email_with_magic_link reset_password_for_email resend logout
    send_sms_with_otp send_email_with_otp sso envelopeError
  rw [hs, hu, hc, hh, hg, hns, herr, h2, hpo]
  rcases pe r.body with _ | e <;>
    exact ⟨rfl, rfl, rfl, rfl, rfl, rfl, rfl, rfl, rfl, rfl, rfl, rfl, rfl,
      rfl, rfl, rfl, rfl, rfl, rfl, rfl, rfl, rfl, rfl⟩

/-- Witness for C5: an envelope-shaped body on a 500 response produces the
authentication error with the envelope message, and an unparsable body on a
200 response makes the OTP-send operation fail with a serialization error. -/
theorem c5_witness :
    (login_with_email psNone peSome sampleClient r500).1
        = .error (envelopeError peSome r500) ∧
      (logout peSome sampleClient r500).1
        = .error (envelopeError peSome r500) ∧
      (send_sms_with_otp poNone peSome sampleClient r200).1
        = .error .serdeError := by
  obtain ⟨h1, h2, h3, h4, h5, h6, h7, h8, h9, h10, h11, h12, h13, h14, h15,
    h16, h17, h18, h19, h20, h21, h22, h23⟩ :=
    c5_error_envelope psNone puNone pcNone phNone pgNone poNone peSome
      sampleClient r500 r200 rfl rfl rfl rfl rfl (by decide) (by decide)
      (by decide) rfl
  exact ⟨h1, h18, h22⟩

/-- Counterexample to C5 as stated: on a 200 response whose body fails the
OTP success-shape parse but parses as the error envelope, send_email_with_otp
returns a serialization error, not an authentication error carrying the
status code and the envelope message. -/
theorem c5_counterexample :
    peSome r200.body = some { message := "boom" } ∧
      (send_email_with_otp poNone peSome sampleClient r200).1
        = .error .serdeError ∧
      (Error.serdeError : Error) ≠ .authError 200 "boom" :=
  ⟨rfl, rfl, by decide⟩

/-- Claim C7: every operation that returns an error leaves the cached session
exactly as it was — the cache is written only on the success branch of the
session-producing logins and of logout. -/
theorem c7_error_preserves_cache (ps : String → Option Session)
    (pc : String → Option EmailSignUpConfirmation)
    (pu : String → Option User) (ph : String → Option AuthServerHealth)
    (pg : String → Option AuthServerSettings)
    (po : String → Option OTPResponse)
    (pe : String → Option SupabaseHTTPError) (c : AuthClient)
    (r : HttpResponse) :
    (isOkResult (login_with_email ps pe c r).1 = false →
        (login_with_email ps pe c r).2 = c) ∧
      (isOkResult (login_with_phone ps pe c r).1 = false →
        (login_with_phone ps pe c r).2 = c) ∧
      (isOkResult (sign_up_with_email_and_password ps pc pe c r).1 = false →
        (sign_up_with_email_and_password ps pc pe c r).2 = c) ∧
      (isOkResult (sign_up_with_phone_and_password ps pe c r).1 = false →
        (sign_up_with_phone_and_password ps pe c r).2 = c) ∧
      (isOkResult (login_anonymously ps pe c r).1 = false →
        (login_anonymously ps pe c r).2 = c) ∧
      (isOkResult (send_login_email_with_magic_link pe c r).1 = false →
        (send_login_email_with_magic_link pe c r).2 = c) ∧
      (isOkResult (send_sms_with_otp po pe c r).1 = false →
        (send_sms_with_otp po pe c r).2 = c) ∧
      (isOkResult (send_email_with_otp po pe c r).1 = false →
        (send_email_with_otp po pe c r).2 = c) ∧
      (isOkResult (get_user pu pe c r).1 = false →
        (get_user pu pe c r).2 = c) ∧
      (isOkResult (update_user pu pe c r).1 = false →
        (update_user pu pe c r).2 = c) ∧
      (isOkResult (login_with_id_token ps pe c r).1 = false →
        (login_with_id_token ps pe c r).2 = c) ∧
      (isOkResult (invite_user_by_email pu pe c r).1 = false →
        (invite_user_by_email pu pe c r).2 = c) ∧
      (isOkResult (verify_otp ps pe c r).1 = false →
        (verify_otp ps pe c r).2 = c) ∧
      (isOkResult (get_health ph pe c r).1 = false →
        (get_health ph pe c r).2 = c) ∧
      (isOkResult (get_settings pg pe c r).1 = false →
        (get_settings pg pe c r).2 = c) ∧
      (isOkResult (exchange_token_for_session ps pe c r).1 = false →
        (exchange_token_for_session ps pe c r).2 = c) ∧
      (isOkResult (refresh_session ps pe c r).1 = false →
        (refresh_session ps pe c r).2 = c) ∧
      (isOkResult (reset_password_for_email pe c r).1 = false →
        (reset_password_for_email pe c r).2 = c) ∧
      (isOkResult (resend pe c r).1 = false → (resend pe c r).2 = c) ∧
      (isOkResult (logout pe c r).1 = false → (logout pe c r).2 = c) ∧
      (isOkResult (sso pe c r).1 = false → (sso pe c r).2 = c) := by
  refine ⟨?_, ?_, ?_, ?_, ?_, ?_, ?_, ?_, ?_, ?_, ?_, ?_, ?_, ?_, ?_, ?_,
    ?_, ?_, ?_, ?_, ?_⟩
  · intro h
    rw [login_with_email_state]
    rcases hps : ps r.body with _ | s
    · rfl
    · simp [login_with_email, hps, isOkResult] at h
  · intro h
    rw [login_with_phone_state]
    rcases hps : ps r.body with _ | s
    · rfl
    · simp [login_with_phone, hps, isOkResult] at h
  · exact fun _ => sign_up_email_frame ps pc pe c r
  · exact fun _ => sign_up_phone_frame ps pe c r
  · intro h
    rw [login_anonymously_state]
    rcases hps : ps r.body with _ | s
    · rfl
    · simp [login_anonymously, hps, isOkResult] at h
  · exact fun _ => magic_link_frame pe c r
  · exact fun _ => send_sms_frame po pe c r
  · exact fun _ => send_email_frame po pe c r
  · exact fun _ => get_user_frame pu pe c r
  · exact fun _ => update_user_frame pu pe c r
  · intro h
    rw [login_with_id_token_state]
    rcases hps : ps r.body with _ | s
    · rfl
    · simp [login_with_id_token, hps, isOkResult] at h
  · exact fun _ => invite_user_frame pu pe c r
  · exact fun _ => verify_otp_frame ps pe c r
  · exact fun _ => get_health_frame ph pe c r
  · exact fun _ => get_settings_frame pg pe c r
  · exact fun _ => exchange_token_frame ps pe c r
  · exact fun _ => exchange_token_frame ps pe c r
  · exact fun _ => reset_password_frame pe c r
  · exact fun _ => resend_frame pe c r
  · intro h
    rw [logout_state]
    rcases hst : isSuccessStatus r.status with _ | _
    · rfl
    · simp [logout, hst, isOkResult] at h
  · exact fun _ => sso_frame pe c r

/-- Witness for C7: with failing parse attempts and a 500 response every
operation errors, and the cache of a client holding a session is untouched;
in particular the failed logout does not clear it and the failed login does
not overwrite it. -/
theorem c7_witness :
    (login_with_email psNone peNone clientWithSession r500).2
        = clientWithSession ∧
      (logout peNone clientWithSession r500).2 = clientWithSession ∧
      (exchange_token_for_session psNone peNone clientWithSession r500).2
        = clientWithSession := by
  obtain ⟨h1, h2, h3, h4, h5, h6, h7, h8, h9, h10, h11, h12, h13, h14, h15,
    h16, h17, h18, h19, h20, h21⟩ :=
    c7_error_preserves_cache psNone pcNone puNone phNone pgNone poNone peNone
      clientWithSession r500
  exact ⟨h1 rfl, h20 rfl, h16 rfl⟩

end SupabaseAuth
